import Mathlib

/-!
Verification development for `pidata-speedtest.py`, a small CLI tool that
runs a network speed test and appends one record to a CSV log.

The Python source is shallowly embedded below:

* CSV files are modelled at the granularity produced by Python's `csv`
  module: a file is a header (list of field names) plus a list of data
  rows (each a list of cell strings).  A missing file is `none`.
* Python dicts built by `csv.DictReader` (`dict(zip(header, row))`) are
  modelled by `dictGet`, a left fold in which a later binding for a key
  overwrites an earlier one, exactly like repeated `dict` assignment.
* `str.strip` / `str.isdigit` / `int` on digit strings are modelled by
  `pyStrip` / `pyIsDigit` / `strToNat` over the ASCII range.
* Python floats are modelled as exact rationals; `round(x, 3)` is
  modelled by `pyRound` (round half to even) scaled by 1000.
* Filesystem state is the pair of "parent directory exists" and the
  optional CSV file at the output path.
-/

namespace Pidata

/-- Whitespace characters recognised by Python's `str.strip()` (ASCII range). -/
def pySpaceChar (c : Char) : Bool :=
  c = ' ' || c = '\t' || c = '\n' || c = '\r' || c = '\x0b' || c = '\x0c'

/-- Model of Python `s.strip()`: drop leading and trailing whitespace. -/
def pyStrip (s : String) : String :=
  String.mk (((s.data.dropWhile pySpaceChar).reverse.dropWhile pySpaceChar).reverse)

/-- Model of Python `s.isdigit()` (ASCII digits): nonempty and all digits. -/
def pyIsDigit (s : String) : Bool :=
  !s.data.isEmpty && s.data.all Char.isDigit

/-- Model of Python `int(s)` for a digit string `s`. -/
def strToNat (s : String) : Nat :=
  s.data.foldl (fun n c => n * 10 + (c.toNat - '0'.toNat)) 0

/-- Lookup in a Python dict built by inserting the pairs of `l` left to
right: a later binding for `k` overwrites an earlier one, as in
`dict(zip(header, row))`. -/
def dictGet (l : List (String × String)) (k : String) : Option String :=
  l.foldl (fun acc p => if p.1 = k then some p.2 else acc) none

/-- A CSV file as parsed by the `csv` module: header row plus data rows. -/
structure CsvFile where
  header : List String
  rows : List (List String)
  deriving DecidableEq

/-- Filesystem state at the output path: whether the parent directory
exists, and the CSV file there (`none` when the file does not exist). -/
structure FsState where
  dirExists : Bool
  file : Option CsvFile
  deriving DecidableEq

/-- One migrated row, from the loop body of `_ensure_csv_has_header`:
for each required field take the existing value when the old header has
the field (`fn in r`, with a missing cell rendered as the empty string,
as `csv` renders `None`), otherwise `device_default` for the `device`
field and the empty string for any other new field. -/
def migrateRow (fieldOrder oldHeader : List String) (r : List String)
    (deviceDefault : String) : List String :=
  fieldOrder.map fun fn =>
    if oldHeader.contains fn then (dictGet (oldHeader.zip r) fn).getD ""
    else if fn = "device" then deviceDefault else ""

/-- Model of `_ensure_csv_has_header(path, fieldnames, device_default)`.
A missing file is left alone; a file whose header already contains every
required field is returned unchanged; otherwise the file is rewritten
with the full header and every row migrated (the temporary file plus
`os.replace` is modelled as the in-place replacement it produces). -/
def ensureCsvHasHeader (fieldOrder : List String) (deviceDefault : String)
    (file : Option CsvFile) : Option CsvFile :=
  match file with
  | none => none
  | some f =>
    if fieldOrder.all fun fn => f.header.contains fn then some f
    else some ⟨fieldOrder, f.rows.map fun r => migrateRow fieldOrder f.header r deviceDefault⟩

/-- Model of `csv.DictWriter.writerow`: emit, in field order, the dict's
value for each field, with the default restval `""` for a missing field.
(`DictWriter` raises on keys outside `fieldnames`; rows written by this
program have keys drawn exactly from `fieldnames`, see
`mainRow_keys_subset`.) -/
def dictWriterRow (fieldOrder : List String) (row : List (String × String)) : List String :=
  fieldOrder.map fun fn => (dictGet row fn).getD ""

/-- Model of `write_csv(path, row, fieldnames)`: create the parent
directory, run the header migration, then append one data row, writing a
header first when the file did not exist. -/
def writeCsv (st : FsState) (row : List (String × String))
    (fieldOrder : List String) : FsState :=
  match ensureCsvHasHeader fieldOrder "" st.file with
  | none => ⟨true, some ⟨fieldOrder, [dictWriterRow fieldOrder row]⟩⟩
  | some f => ⟨true, some ⟨f.header, f.rows ++ [dictWriterRow fieldOrder row]⟩⟩

/-- Sequential calls to `write_csv`, one per record. -/
def writeAll (st : FsState) (records : List (List (String × String)))
    (fieldOrder : List String) : FsState :=
  records.foldl (fun s r => writeCsv s r fieldOrder) st

/-- Reading the cell of field `fn` from data row `r` under `header`:
the cell at the (first) position of `fn` in the header, empty when
absent.  This is the parse-back-by-field-name reading used to state the
specification's round-trip and migration properties. -/
def fieldValueByName (header r : List String) (fn : String) : String :=
  (r[header.indexOf fn]?).getD ""

/-- Outcome of device resolution (`main`, lines 107-122). -/
inductive DeviceRes where
  | ok (d : String)
  | invalid (msg : String)
  | noInput
  deriving DecidableEq

/-- Message printed for an out-of-range numeric device selector. -/
def invalidNumberMsg (ds : List String) (sel : String) : String :=
  "Invalid device number: " ++ sel ++ ". Must be between 1 and " ++ toString ds.length ++ "."

/-- Message printed for an unknown device name. -/
def invalidNameMsg (ds : List String) (sel : String) : String :=
  "Invalid device name: " ++ sel ++ ". Valid names: " ++ String.intercalate ", " ds

/-- Model of `choose_device_interactive(devices)` applied to the (finite)
list of lines available on standard input.  `none` means the loop
consumed every line without receiving valid input (in Python it would
keep prompting). -/
def chooseDeviceInteractive (ds : List String) : List String → Option String
  | [] => none
  | line :: rest =>
    let sel := pyStrip line
    if sel = "" then some "UNKNOWN"
    else if pyIsDigit sel then
      if h : 1 ≤ strToNat sel ∧ strToNat sel ≤ ds.length then
        some (ds.get ⟨strToNat sel - 1, by omega⟩)
      else chooseDeviceInteractive ds rest
    else if ds.contains sel then some sel
    else chooseDeviceInteractive ds rest

/-- Model of the positional-argument branch of `main` (lines 110-120):
strip the argument, then numeric index, literal name, or an abort
message. -/
def resolvePositional (ds : List String) (a : String) : DeviceRes :=
  let sel := pyStrip a
  if pyIsDigit sel then
    if h : 1 ≤ strToNat sel ∧ strToNat sel ≤ ds.length then
      .ok (ds.get ⟨strToNat sel - 1, by omega⟩)
    else .invalid (invalidNumberMsg ds sel)
  else if ds.contains sel then .ok sel
  else .invalid (invalidNameMsg ds sel)

/-- Interactive prompt outcome as a `DeviceRes`. -/
def promptToRes (ds : List String) (input : List String) : DeviceRes :=
  match chooseDeviceInteractive ds input with
  | some d => .ok d
  | none => .noInput

/-- Model of the device-determination chain of `main` (lines 107-122).
`if args.device:` and `elif args.device_arg:` are Python truthiness
tests, so a missing argument and an empty-string argument both fall
through. -/
def resolveDevice (ds : List String) (flag pos : Option String)
    (input : List String) : DeviceRes :=
  if flag.getD "" ≠ "" then .ok (flag.getD "")
  else if pos.getD "" ≠ "" then resolvePositional ds (pos.getD "")
  else promptToRes ds input

/-- The hardcoded device catalog of `main`. -/
def devices : List String := ["TUCMOTO5", "TUCMOTO2", "ZyXEL20522"]

/-- The fixed CSV field order of `main`. -/
def fieldnames : List String :=
  ["device", "timestamp", "server_id", "server_name", "sponsor", "country", "host",
   "lat", "lon", "ping_ms", "download_mbps", "upload_mbps", "client_ip", "client_isp"]

/-- The record returned by `run_speedtest`, with every value already in
the string form the `csv` module would write. -/
structure SpeedRec where
  timestamp : String
  server_id : String
  server_name : String
  sponsor : String
  country : String
  host : String
  lat : String
  lon : String
  ping_ms : String
  download_mbps : String
  upload_mbps : String
  client_ip : String
  client_isp : String
  deriving DecidableEq

/-- The `run_speedtest` record as the key-value pairs of its dict, in
source order. -/
def SpeedRec.toRow (r : SpeedRec) : List (String × String) :=
  [("timestamp", r.timestamp), ("server_id", r.server_id),
   ("server_name", r.server_name), ("sponsor", r.sponsor),
   ("country", r.country), ("host", r.host), ("lat", r.lat), ("lon", r.lon),
   ("ping_ms", r.ping_ms), ("download_mbps", r.download_mbps),
   ("upload_mbps", r.upload_mbps), ("client_ip", r.client_ip),
   ("client_isp", r.client_isp)]

/-- Result of one run of `main`: argparse rejection of the `--device`
value, a printed-message abort (state untouched), exhausted interactive
input, or a successful run with the final filesystem state. -/
inductive MainResult where
  | parserError (st : FsState)
  | aborted (msg : String) (st : FsState)
  | needInput (st : FsState)
  | success (device : String) (st : FsState)
  deriving DecidableEq

/-- The filesystem state carried by a `MainResult`. -/
def MainResult.state : MainResult → FsState
  | .parserError st => st
  | .aborted _ st => st
  | .needInput st => st
  | .success _ st => st

/-- Whether a `MainResult` is a successful run. -/
def MainResult.isSuccess : MainResult → Bool
  | .success _ _ => true
  | _ => false

/-- `main` after argument parsing: resolve the device, run the speed
test inside the try/except (its outcome is the `meas` parameter), then
assemble the row with `device` prepended and append it. -/
def pyMainBody (flag pos : Option String) (input : List String)
    (meas : Except String SpeedRec) (st : FsState) : MainResult :=
  match resolveDevice devices flag pos input with
  | .invalid msg => .aborted msg st
  | .noInput => .needInput st
  | .ok d =>
    match meas with
    | .error e => .aborted ("Speedtest failed: " ++ e) st
    | .ok rec => .success d (writeCsv st (("device", d) :: rec.toRow) fieldnames)

/-- Model of `main`: argparse validates a supplied `--device` value
against the catalog (`choices=devices`) before anything else runs. -/
def pyMain (flag pos : Option String) (input : List String)
    (meas : Except String SpeedRec) (st : FsState) : MainResult :=
  match flag with
  | some d =>
    if devices.contains d then pyMainBody (some d) pos input meas st
    else .parserError st
  | none => pyMainBody none pos input meas st

/-- Python `round` to an integer: round half to even. -/
def pyRound (x : ℚ) : ℤ :=
  if x - x.floor < 1/2 then x.floor
  else if 1/2 < x - x.floor then x.floor + 1
  else if x.floor % 2 = 0 then x.floor else x.floor + 1

/-- Python `round(x, 3)`. -/
def round3 (x : ℚ) : ℚ := (pyRound (x * 1000) : ℚ) / 1000

/-- The throughput fields of `run_speedtest` (lines 24-25):
`round(download_bps / 1_000_000, 3)` and `round(upload_bps / 1_000_000, 3)`,
with the raw bits-per-second measurements as exact rationals. -/
def runSpeedtestMbps (download_bps upload_bps : ℚ) : ℚ × ℚ :=
  (round3 (download_bps / 1000000), round3 (upload_bps / 1000000))

/-- Claim-side classifier for one prompt line, following the claim's
wording literally: an empty line resolves to `UNKNOWN`, a purely numeric
line with in-range value to the catalog entry at that 1-based index, a
line exactly equal to a catalog entry to that entry, and anything else
(`none`) causes a re-prompt. -/
def claimLineResolve (ds : List String) (line : String) : Option String :=
  if line = "" then some "UNKNOWN"
  else if pyIsDigit line then
    if 1 ≤ strToNat line ∧ strToNat line ≤ ds.length then ds[strToNat line - 1]?
    else none
  else if line ∈ ds then some line
  else none

/-- Claim-side device precedence, following the claim's wording
literally: a supplied flag is used, else a supplied positional argument
is fed to positional resolution, else the prompt is used. -/
def claimResolveDevice (ds : List String) (flag pos : Option String)
    (input : List String) : DeviceRes :=
  match flag with
  | some d => .ok d
  | none =>
    match pos with
    | some a => resolvePositional ds a
    | none => promptToRes ds input

/-- Claim-side classification of a positional argument, following the
claim's wording literally: purely numeric and in range resolves to the
catalog entry at that 1-based index, numeric out of range aborts naming
the valid range, and a non-numeric value not exactly equal to a catalog
entry aborts naming the valid names. -/
def claimPositional (ds : List String) (a : String) : DeviceRes :=
  if pyIsDigit a then
    if 1 ≤ strToNat a ∧ strToNat a ≤ ds.length then .ok ((ds[strToNat a - 1]?).getD "")
    else .invalid (invalidNumberMsg ds a)
  else if a ∈ ds then .ok a
  else .invalid (invalidNameMsg ds a)

/-! ### Helper lemmas about dict lookup -/

theorem foldl_update_of_not_mem (k : String) (l : List (String × String))
    (acc : Option String) (hk : ∀ p ∈ l, p.1 ≠ k) :
    l.foldl (fun acc p => if p.1 = k then some p.2 else acc) acc = acc := by
  induction l generalizing acc with
  | nil => rfl
  | cons p t ih =>
    rw [List.foldl_cons, if_neg (hk p (by simp))]
    exact ih acc fun q hq => hk q (by simp [hq])

theorem dictGet_cons_of_ne (p : String × String) (t : List (String × String))
    (k : String) (hp : p.1 ≠ k) : dictGet (p :: t) k = dictGet t k := by
  simp only [dictGet, List.foldl_cons, if_neg hp]

theorem dictGet_cons_self (p : String × String) (t : List (String × String))
    (k : String) (hp : p.1 = k) (ht : ∀ q ∈ t, q.1 ≠ k) :
    dictGet (p :: t) k = some p.2 := by
  simp only [dictGet, List.foldl_cons, if_pos hp]
  exact foldl_update_of_not_mem k t _ ht

theorem dictGet_of_mem_of_keys_nodup (l : List (String × String)) (k v : String)
    (hnd : (l.map Prod.fst).Nodup) (hm : (k, v) ∈ l) : dictGet l k = some v := by
  induction l with
  | nil => cases hm
  | cons p t ih =>
    rw [List.map_cons, List.nodup_cons] at hnd
    rcases List.mem_cons.mp hm with h | h
    · subst h
      apply dictGet_cons_self (k, v) t k rfl
      intro q hq hqk
      have hmem : q.1 ∈ List.map Prod.fst t := List.mem_map_of_mem Prod.fst hq
      rw [hqk] at hmem
      exact hnd.1 hmem
    · have hp1 : p.1 ≠ k := fun hpk => hnd.1 (by
        rw [hpk]
        exact List.mem_map_of_mem Prod.fst h)
      rw [dictGet_cons_of_ne _ _ _ hp1]
      exact ih hnd.2 h

theorem not_mem_zip_keys (h r : List String) (fn : String) (hfn : fn ∉ h) :
    ∀ p ∈ h.zip r, p.1 ≠ fn := by
  intro p hp hpfn
  exact hfn (hpfn ▸ (List.of_mem_zip hp).1)

theorem dictGet_zip_eq_getElem (h r : List String) (fn : String)
    (hnd : h.Nodup) (hm : fn ∈ h) : dictGet (h.zip r) fn = r[h.indexOf fn]? := by
  induction h generalizing r with
  | nil => cases hm
  | cons a t ih =>
    rw [List.nodup_cons] at hnd
    cases r with
    | nil => simp [dictGet]
    | cons b r' =>
      by_cases hfa : a = fn
      · subst hfa
        rw [List.zip_cons_cons, dictGet_cons_self (a, b) _ a rfl
          (not_mem_zip_keys t r' a hnd.1), List.indexOf_cons_self]
        simp
      · have hmt : fn ∈ t := by
          rcases List.mem_cons.mp hm with h' | h'
          · exact absurd h'.symm hfa
          · exact h'
        rw [List.zip_cons_cons, dictGet_cons_of_ne (a, b) _ fn hfa,
          ih r' hnd.2 hmt, List.indexOf_cons_ne _ hfa]
        exact (List.getElem?_cons_succ ..).symm

theorem fieldValueByName_map (header : List String) (g : String → String)
    (fn : String) (hm : fn ∈ header) :
    fieldValueByName header (header.map g) fn = g fn := by
  unfold fieldValueByName
  have hlt : header.indexOf fn < header.length := List.indexOf_lt_length.mpr hm
  rw [List.getElem?_map, List.getElem?_eq_getElem hlt, List.getElem_indexOf hlt]
  rfl

/-! ### Helper lemmas about the CSV appender -/

theorem ensureCsvHasHeader_superset (fieldOrder h : List String)
    (rows : List (List String)) (dd : String) (hsup : ∀ fn ∈ fieldOrder, fn ∈ h) :
    ensureCsvHasHeader fieldOrder dd (some ⟨h, rows⟩) = some ⟨h, rows⟩ := by
  have hall : (fieldOrder.all fun fn => h.contains fn) = true := by
    rw [List.all_eq_true]
    intro fn hfn
    exact List.elem_iff.mpr (hsup fn hfn)
  simp only [ensureCsvHasHeader, hall, if_true]

theorem ensureCsvHasHeader_missing (fieldOrder h : List String)
    (rows : List (List String)) (dd : String)
    (hmiss : ∃ fn, fn ∈ fieldOrder ∧ fn ∉ h) :
    ensureCsvHasHeader fieldOrder dd (some ⟨h, rows⟩) =
      some ⟨fieldOrder, rows.map fun r => migrateRow fieldOrder h r dd⟩ := by
  obtain ⟨fn, hfn, hnot⟩ := hmiss
  have hnall : ¬ ((fieldOrder.all fun fn => h.contains fn) = true) := by
    intro hall
    rw [List.all_eq_true] at hall
    exact hnot (List.elem_iff.mp (hall fn hfn))
  simp only [ensureCsvHasHeader, if_neg hnall]

theorem writeCsv_none (row : List (String × String)) (fieldOrder : List String)
    (d0 : Bool) : writeCsv ⟨d0, none⟩ row fieldOrder =
      ⟨true, some ⟨fieldOrder, [dictWriterRow fieldOrder row]⟩⟩ := rfl

theorem writeCsv_superset (fieldOrder h : List String) (rows : List (List String))
    (row : List (String × String)) (d0 : Bool) (hsup : ∀ fn ∈ fieldOrder, fn ∈ h) :
    writeCsv ⟨d0, some ⟨h, rows⟩⟩ row fieldOrder =
      ⟨true, some ⟨h, rows ++ [dictWriterRow fieldOrder row]⟩⟩ := by
  unfold writeCsv
  rw [ensureCsvHasHeader_superset fieldOrder h rows "" hsup]

theorem migrateRow_eq_spec (fieldOrder h r : List String) (hnd : h.Nodup) :
    migrateRow fieldOrder h r "" =
      fieldOrder.map fun fn => if fn ∈ h then fieldValueByName h r fn else "" := by
  unfold migrateRow
  apply List.map_congr_left
  intro fn _
  by_cases hfn : fn ∈ h
  · rw [if_pos (List.elem_iff.mpr hfn), if_pos hfn,
      dictGet_zip_eq_getElem h r fn hnd hfn]
    rfl
  · rw [if_neg fun hc => hfn (List.elem_iff.mp hc), if_neg hfn]
    split <;> rfl

/-! ### Claims C1, C2, C9, C10 -/

/-- C1: when `write_csv` is called on an existing file whose header is
missing at least one required field, the migration rewrites the file so
that it carries exactly the required header, the old data rows are kept
in order with none dropped or duplicated, every field present in the old
header keeps its old value (read by field name), and every field absent
from the old header is filled with the empty string on every
pre-existing row; the new record's row is then appended. -/
theorem migration_rewrites_file_c1 (fieldOrder h : List String)
    (rows : List (List String)) (row : List (String × String)) (d0 : Bool)
    (hmiss : ∃ fn, fn ∈ fieldOrder ∧ fn ∉ h) (hnd : h.Nodup) :
    writeCsv ⟨d0, some ⟨h, rows⟩⟩ row fieldOrder =
      ⟨true, some ⟨fieldOrder,
        (rows.map fun r =>
          fieldOrder.map fun fn => if fn ∈ h then fieldValueByName h r fn else "")
        ++ [dictWriterRow fieldOrder row]⟩⟩ := by
  unfold writeCsv
  rw [ensureCsvHasHeader_missing fieldOrder h rows "" hmiss]
  have : (rows.map fun r => migrateRow fieldOrder h r "") =
      rows.map fun r =>
        fieldOrder.map fun fn => if fn ∈ h then fieldValueByName h r fn else "" :=
    List.map_congr_left fun r _ => migrateRow_eq_spec fieldOrder h r hnd
  rw [this]

/-- Witness for C1: a file with header `["a"]` and one row `["x"]`,
appended to with required fields `["device", "a"]`. -/
theorem migration_rewrites_file_c1_witness :
    writeCsv ⟨false, some ⟨["a"], [["x"]]⟩⟩ [("device", "D"), ("a", "y")]
        ["device", "a"] =
      ⟨true, some ⟨["device", "a"],
        ([["x"]].map fun r =>
          ["device", "a"].map fun fn => if fn ∈ ["a"] then fieldValueByName ["a"] r fn else "")
        ++ [dictWriterRow ["device", "a"] [("device", "D"), ("a", "y")]]⟩⟩ :=
  migration_rewrites_file_c1 ["device", "a"] ["a"] [["x"]]
    [("device", "D"), ("a", "y")] false ⟨"device", by decide, by decide⟩ (by decide)

/-- C2: when the existing header already contains every required field,
`write_csv` performs no migration: the header and all prior rows are
unchanged and exactly one row is appended at the end. -/
theorem append_no_migration_c2 (fieldOrder h : List String)
    (rows : List (List String)) (row : List (String × String)) (d0 : Bool)
    (hsup : ∀ fn ∈ fieldOrder, fn ∈ h) :
    ∃ v, writeCsv ⟨d0, some ⟨h, rows⟩⟩ row fieldOrder =
      ⟨true, some ⟨h, rows ++ [v]⟩⟩ :=
  ⟨dictWriterRow fieldOrder row, writeCsv_superset fieldOrder h rows row d0 hsup⟩

/-- Witness for C2: header `["a", "device", "extra"]` already contains
the required fields `["device", "a"]`; file content is preserved with
one row appended. -/
theorem append_no_migration_c2_witness :
    ∃ v, writeCsv ⟨true, some ⟨["a", "device", "extra"], [["1", "2", "3"]]⟩⟩
        [("device", "d"), ("a", "x")] ["device", "a"] =
      ⟨true, some ⟨["a", "device", "extra"], [["1", "2", "3"]] ++ [v]⟩⟩ :=
  append_no_migration_c2 ["device", "a"] ["a", "device", "extra"]
    [["1", "2", "3"]] [("device", "d"), ("a", "x")] true (by decide)

/-- C9: appending to a non-existent path creates the parent directory,
then creates the file with the header row first and exactly one data
row. -/
theorem fresh_path_header_then_row_c9 (row : List (String × String))
    (fieldOrder : List String) :
    writeCsv ⟨false, none⟩ row fieldOrder =
      ⟨true, some ⟨fieldOrder, [dictWriterRow fieldOrder row]⟩⟩ := rfl

/-- C10: the migration-skip test is set containment only: for an
existing header that contains every required field but differs from the
required field order (reordered or with extra columns), no migration
happens and the appended row's cells are laid out in required-field
order, not in the file's header order. -/
theorem append_uses_field_order_positions_c10 (fieldOrder h : List String)
    (rows : List (List String)) (row : List (String × String)) (d0 : Bool)
    (hsup : ∀ fn ∈ fieldOrder, fn ∈ h) (_hne : h ≠ fieldOrder) :
    writeCsv ⟨d0, some ⟨h, rows⟩⟩ row fieldOrder =
      ⟨true, some ⟨h, rows ++ [fieldOrder.map fun fn => (dictGet row fn).getD ""]⟩⟩ :=
  writeCsv_superset fieldOrder h rows row d0 hsup

/-- Witness for C10: header `["b", "a"]` is a permutation of the
required `["a", "b"]`; the appended row is `["1", "2"]`, i.e. in
required-field order, not aligned with the header. -/
theorem append_uses_field_order_positions_c10_witness :
    writeCsv ⟨true, some ⟨["b", "a"], [["x", "y"]]⟩⟩ [("a", "1"), ("b", "2")]
        ["a", "b"] =
      ⟨true, some ⟨["b", "a"],
        [["x", "y"]] ++ [["a", "b"].map fun fn =>
          (dictGet [("a", "1"), ("b", "2")] fn).getD ""]⟩⟩ :=
  append_uses_field_order_positions_c10 ["a", "b"] ["b", "a"] [["x", "y"]]
    [("a", "1"), ("b", "2")] true (by decide) (by decide)

/-! ### Claim C8: round trip of sequential appends -/

theorem writeAll_own_header (fieldOrder : List String)
    (records : List (List (String × String))) (rs : List (List String))
    (d0 : Bool) :
    ∃ d1, writeAll ⟨d0, some ⟨fieldOrder, rs⟩⟩ records fieldOrder =
      ⟨d1, some ⟨fieldOrder, rs ++ records.map (dictWriterRow fieldOrder)⟩⟩ := by
  induction records generalizing rs d0 with
  | nil => exact ⟨d0, by simp [writeAll]⟩
  | cons r t ih =>
    have hstep : writeCsv ⟨d0, some ⟨fieldOrder, rs⟩⟩ r fieldOrder =
        ⟨true, some ⟨fieldOrder, rs ++ [dictWriterRow fieldOrder r]⟩⟩ :=
      writeCsv_superset fieldOrder fieldOrder rs r d0 fun _ hfn => hfn
    obtain ⟨d1, hrest⟩ := ih (rs ++ [dictWriterRow fieldOrder r]) true
    refine ⟨d1, ?_⟩
    rw [writeAll, List.foldl_cons, hstep]
    rw [writeAll] at hrest
    rw [hrest, List.append_assoc, List.singleton_append, List.map_cons]

/-- C8: writing `N ≥ 1` records sequentially to a fresh path yields a
file whose header is the field order and whose data rows are exactly the
written records in write order (so `1 + N` lines in all), and parsing
any data row back by the header recovers every field value of the record
that produced it. -/
theorem round_trip_c8 (fieldOrder : List String)
    (records : List (List (String × String))) (d0 : Bool)
    (hne : records ≠ [])
    (hkeys : ∀ r ∈ records, ∀ kv ∈ r, kv.1 ∈ fieldOrder)
    (hnodup : ∀ r ∈ records, (r.map Prod.fst).Nodup) :
    (∃ d1, writeAll ⟨d0, none⟩ records fieldOrder =
      ⟨d1, some ⟨fieldOrder, records.map (dictWriterRow fieldOrder)⟩⟩) ∧
    (records.map (dictWriterRow fieldOrder)).length = records.length ∧
    ∀ r ∈ records, ∀ kv ∈ r,
      fieldValueByName fieldOrder (dictWriterRow fieldOrder r) kv.1 = kv.2 := by
  refine ⟨?_, List.length_map records _, ?_⟩
  · cases records with
    | nil => exact absurd rfl hne
    | cons r t =>
      obtain ⟨d1, hrest⟩ := writeAll_own_header fieldOrder t
        [dictWriterRow fieldOrder r] true
      refine ⟨d1, ?_⟩
      rw [writeAll, List.foldl_cons, writeCsv_none]
      rw [writeAll] at hrest
      rw [hrest, List.singleton_append, List.map_cons]
  · intro r hr kv hkv
    obtain ⟨k, v⟩ := kv
    unfold dictWriterRow
    rw [fieldValueByName_map fieldOrder _ k (hkeys r hr (k, v) hkv),
      dictGet_of_mem_of_keys_nodup r k v (hnodup r hr) hkv]
    rfl

/-- Witness for C8: two records written to a fresh path with field order
`["device", "a"]`. -/
theorem round_trip_c8_witness :
    (∃ d1, writeAll ⟨false, none⟩
        [[("device", "D"), ("a", "1")], [("a", "2"), ("device", "E")]]
        ["device", "a"] =
      ⟨d1, some ⟨["device", "a"],
        [[("device", "D"), ("a", "1")], [("a", "2"), ("device", "E")]].map
          (dictWriterRow ["device", "a"])⟩⟩) ∧
    ([[("device", "D"), ("a", "1")], [("a", "2"), ("device", "E")]].map
      (dictWriterRow ["device", "a"])).length =
      [[("device", "D"), ("a", "1")], [("a", "2"), ("device", "E")]].length ∧
    ∀ r ∈ [[("device", "D"), ("a", "1")], [("a", "2"), ("device", "E")]],
      ∀ kv ∈ r, fieldValueByName ["device", "a"]
        (dictWriterRow ["device", "a"] r) kv.1 = kv.2 :=
  round_trip_c8 ["device", "a"]
    [[("device", "D"), ("a", "1")], [("a", "2"), ("device", "E")]] false
    (by decide) (by decide) (by decide)

/-! ### Claim C5: the interactive prompt -/

/-- The prompt loop resolves, line by line, exactly as the claim's
classifier does once each line is first stripped of leading and trailing
whitespace (the source applies `.strip()` to the input line). -/
theorem interactive_prompt_c5_amended (ds : List String) (lines : List String) :
    chooseDeviceInteractive ds lines =
      lines.findSome? fun l => claimLineResolve ds (pyStrip l) := by
  induction lines with
  | nil => rfl
  | cons line rest ih =>
    rw [List.findSome?_cons]
    by_cases h1 : pyStrip line = ""
    · simp [chooseDeviceInteractive, claimLineResolve, h1]
    · by_cases h2 : pyIsDigit (pyStrip line) = true
      · by_cases h3 : 1 ≤ strToNat (pyStrip line) ∧ strToNat (pyStrip line) ≤ ds.length
        · have hlt : strToNat (pyStrip line) - 1 < ds.length := by omega
          simp only [chooseDeviceInteractive, claimLineResolve, if_neg h1, h2,
            if_true, dif_pos h3, if_pos h3, List.getElem?_eq_getElem hlt]
          rfl
        · simp only [chooseDeviceInteractive, claimLineResolve, if_neg h1, h2,
            if_true, dif_neg h3, if_neg h3]
          exact ih
      · by_cases h4 : pyStrip line ∈ ds
        · simp only [chooseDeviceInteractive, claimLineResolve, if_neg h1,
            Bool.not_eq_true _ ▸ h2, if_pos (List.elem_iff.mpr h4), if_pos h4]
          simp [h2]
        · simp only [chooseDeviceInteractive, claimLineResolve, if_neg h1, h2]
          rw [if_neg fun hc => h4 (List.elem_iff.mp hc), if_neg h4]
          simp only [Bool.false_eq_true, if_false]
          exact ih

/-- Counterexample to C5 as stated: the claim classifies lines without
stripping, so the whitespace-only line `" "` is neither empty, numeric,
nor a catalog name and should re-prompt forever; the code strips it and
resolves it to `UNKNOWN`. -/
theorem interactive_prompt_c5_counterexample :
    ¬ ∀ (ds : List String) (lines : List String),
      chooseDeviceInteractive ds lines = lines.findSome? (claimLineResolve ds) := by
  intro hall
  have h := hall devices [" "]
  revert h
  decide

/-! ### Claims C3 and C4: device precedence and positional resolution -/

/-- Counterexample to C3 as stated: with the empty string supplied as
positional argument, the claim says the positional argument is used (and
positional resolution of `""` aborts with an invalid-name message), but
the code's truthiness test skips it and consults the interactive prompt,
which resolves the empty input line to `UNKNOWN`. -/
theorem device_precedence_c3_counterexample :
    ¬ ∀ (ds : List String) (flag pos : Option String) (input : List String),
      resolveDevice ds flag pos input = claimResolveDevice ds flag pos input := by
  intro hall
  have h := hall devices none (some "") [""]
  revert h
  decide

/-- C3 amended: the resolution precedence is flag, then positional, then
prompt, except that an empty-string flag or positional argument is
treated as absent (Python truthiness), so an empty positional falls
through to the prompt; independently, `argparse` rejects a `--device`
value that is not in the catalog before anything else runs. -/
theorem device_precedence_c3_amended :
    (∀ (ds : List String) (flag pos : Option String) (input : List String),
      (∀ d, flag = some d → d ≠ "") →
      resolveDevice ds flag pos input =
        match flag, pos with
        | some d, _ => DeviceRes.ok d
        | none, some a =>
          if a = "" then promptToRes ds input else resolvePositional ds a
        | none, none => promptToRes ds input) ∧
    (∀ (d : String) (pos : Option String) (input : List String)
      (meas : Except String SpeedRec) (st : FsState), d ∉ devices →
      pyMain (some d) pos input meas st = .parserError st) := by
  constructor
  · intro ds flag pos input hflag
    cases flag with
    | some d =>
      have hd : d ≠ "" := hflag d rfl
      simp only [resolveDevice, Option.getD_some, if_pos hd]
    | none =>
      cases pos with
      | some a =>
        by_cases ha : a = ""
        · subst ha
          simp [resolveDevice]
        · simp [resolveDevice, ha]
      | none => simp [resolveDevice]
  · intro d pos input meas st hd
    have hc : devices.contains d = false := by
      rcases hcon : devices.contains d with _ | _
      · rfl
      · exact absurd (List.elem_iff.mp hcon) hd
    simp only [pyMain, hc, Bool.false_eq_true, if_false]

/-- Witness for C3 amended: a supplied `--device TUCMOTO5` wins over a
positional argument, and an unknown `--device` value is rejected by the
parser before any other activity. -/
theorem device_precedence_c3_amended_witness :
    resolveDevice devices (some "TUCMOTO5") (some "2") [] = .ok "TUCMOTO5" ∧
    pyMain (some "NOPE") none [] (Except.error "net down") ⟨false, none⟩ =
      .parserError ⟨false, none⟩ :=
  ⟨device_precedence_c3_amended.1 devices (some "TUCMOTO5") (some "2") []
      (fun d hd => by cases hd; decide),
    device_precedence_c3_amended.2 "NOPE" none [] (Except.error "net down")
      ⟨false, none⟩ (by decide)⟩

/-- Counterexample to C4 as stated: the positional argument `" 2 "` is
neither purely numeric nor exactly equal to a catalog entry, so the
claim requires an abort; the code strips it first and resolves it to the
second catalog entry. -/
theorem positional_resolution_c4_counterexample :
    ¬ ∀ (ds : List String) (a : String),
      resolvePositional ds a = claimPositional ds a := by
  intro hall
  have h := hall devices " 2 "
  revert h
  decide

/-- C4 amended: a non-empty positional argument is classified after
stripping leading and trailing whitespace (numeric in range resolves to
the catalog entry at that 1-based index; numeric out of range, or not a
catalog name, aborts with the message naming the valid range or names,
with no row written and the filesystem untouched regardless of the
measurement outcome); an empty positional argument instead behaves
exactly as an absent one, falling through to the prompt. -/
theorem positional_resolution_c4_amended :
    (∀ (ds : List String) (a : String),
      resolvePositional ds a = claimPositional ds (pyStrip a)) ∧
    (∀ (a msg : String) (input : List String) (meas : Except String SpeedRec)
      (st : FsState), resolvePositional devices a = .invalid msg → a ≠ "" →
      pyMain none (some a) input meas st = .aborted msg st) ∧
    (∀ (input : List String) (meas : Except String SpeedRec) (st : FsState),
      pyMain none (some "") input meas st = pyMain none none input meas st) := by
  refine ⟨?_, ?_, ?_⟩
  · intro ds a
    unfold resolvePositional claimPositional
    by_cases h2 : pyIsDigit (pyStrip a) = true
    · by_cases h3 : 1 ≤ strToNat (pyStrip a) ∧ strToNat (pyStrip a) ≤ ds.length
      · have hlt : strToNat (pyStrip a) - 1 < ds.length := by omega
        simp only [h2, if_true, dif_pos h3, if_pos h3,
          List.getElem?_eq_getElem hlt]
        rfl
      · simp only [h2, if_true, dif_neg h3, if_neg h3]
    · by_cases h4 : pyStrip a ∈ ds
      · simp only [h2, if_pos (List.elem_iff.mpr h4), if_pos h4]
        simp [h2]
      · simp only [h2]
        rw [if_neg fun hc => h4 (List.elem_iff.mp hc), if_neg h4]
        simp [h2]
  · intro a msg input meas st hres ha
    simp only [pyMain, pyMainBody, resolveDevice, Option.getD_none,
      Option.getD_some, ne_eq, not_true_eq_false, if_false, if_pos ha, hres]
  · intro input meas st
    rfl

/-- Witness for C4 amended: the out-of-range positional `"99"` aborts
with the range message and leaves the filesystem state unchanged. -/
theorem positional_resolution_c4_amended_witness :
    pyMain none (some "99") [] (Except.ok
        ⟨"t", "i", "n", "s", "c", "h", "la", "lo", "p", "d", "u", "ip", "isp"⟩)
      ⟨true, none⟩ =
      .aborted "Invalid device number: 99. Must be between 1 and 3." ⟨true, none⟩ :=
  positional_resolution_c4_amended.2.1 "99"
    "Invalid device number: 99. Must be between 1 and 3." []
    (Except.ok ⟨"t", "i", "n", "s", "c", "h", "la", "lo", "p", "d", "u", "ip", "isp"⟩)
    ⟨true, none⟩ (by decide) (by decide)

/-! ### Claim C6: measurement failure leaves the filesystem untouched -/

/-- C6: whenever the measurement raises, `main` catches it and returns:
the resulting filesystem state is exactly the initial one (no row
appended, no directory created, no migration) and the run is not a
success. -/
theorem measurement_failure_no_mutation_c6 (flag pos : Option String)
    (input : List String) (e : String) (st : FsState) :
    (pyMain flag pos input (Except.error e) st).state = st ∧
    (pyMain flag pos input (Except.error e) st).isSuccess = false := by
  cases flag with
  | none =>
    cases hres : resolveDevice devices none pos input <;>
      simp [pyMain, pyMainBody, hres, MainResult.state, MainResult.isSuccess]
  | some d =>
    by_cases hm : d ∈ devices
    · cases hres : resolveDevice devices (some d) pos input <;>
        simp [pyMain, pyMainBody, hm, hres, MainResult.state, MainResult.isSuccess]
    · simp [pyMain, pyMainBody, hm, MainResult.state, MainResult.isSuccess]

/-! ### Claim C7: throughput normalization -/

theorem ratFloor_eq_intFloor (q : ℚ) : q.floor = ⌊q⌋ := by
  rw [Rat.floor_def', Rat.floor_def]

theorem pyRound_intCast (n : ℤ) : pyRound (n : ℚ) = n := by
  unfold pyRound
  rw [ratFloor_eq_intFloor, Int.floor_intCast]
  simp

theorem pyRound_sub_abs (x : ℚ) : |(pyRound x : ℚ) - x| ≤ 1 / 2 := by
  have h0 : (⌊x⌋ : ℚ) ≤ x := Int.floor_le x
  have h1 : x < ⌊x⌋ + 1 := Int.lt_floor_add_one x
  unfold pyRound
  rw [ratFloor_eq_intFloor]
  split_ifs with ha hb hc
  · rw [abs_le]
    constructor <;> linarith
  · rw [abs_le]
    constructor <;> push_cast <;> linarith
  · rw [abs_le]
    constructor <;> linarith
  · rw [abs_le]
    constructor <;> push_cast <;> linarith

theorem round3_mul_1000 (x : ℚ) : round3 x * 1000 = (pyRound (x * 1000) : ℚ) := by
  unfold round3
  field_simp

theorem round3_sub_abs (x : ℚ) : |round3 x - x| ≤ 1 / 2000 := by
  have h := pyRound_sub_abs (x * 1000)
  unfold round3
  have hrw : (pyRound (x * 1000) : ℚ) / 1000 - x =
      ((pyRound (x * 1000) : ℚ) - x * 1000) / 1000 := by ring
  rw [hrw, abs_div, abs_of_pos (by norm_num : (0 : ℚ) < 1000)]
  have := (div_le_div_iff_of_pos_right (by norm_num : (0 : ℚ) < 1000)).mpr h
  linarith

/-- C7: the logged `download_mbps` and `upload_mbps` are the raw
bits-per-second values divided by 1,000,000 and rounded to 3 decimal
places: each result times 1000 is an integer and each result is within
half of a thousandth of the exact quotient; in particular a raw download
of 123,456,000 bps is logged as 123.456. -/
theorem throughput_rounding_c7 :
    (runSpeedtestMbps 123456000 123456000).1 = (123.456 : ℚ) ∧
    (runSpeedtestMbps 123456000 123456000).2 = (123.456 : ℚ) ∧
    ∀ d u : ℚ,
      (∃ nd : ℤ, (runSpeedtestMbps d u).1 * 1000 = nd) ∧
      (∃ nu : ℤ, (runSpeedtestMbps d u).2 * 1000 = nu) ∧
      |(runSpeedtestMbps d u).1 - d / 1000000| ≤ 1 / 2000 ∧
      |(runSpeedtestMbps d u).2 - u / 1000000| ≤ 1 / 2000 := by
  have hinst : round3 ((123456000 : ℚ) / 1000000) = (123.456 : ℚ) := by
    have h1 : (123456000 : ℚ) / 1000000 * 1000 = ((123456 : ℤ) : ℚ) := by norm_num
    unfold round3
    rw [h1, pyRound_intCast]
    norm_num
  refine ⟨hinst, hinst, fun d u => ?_⟩
  exact ⟨⟨pyRound (d / 1000000 * 1000), round3_mul_1000 (d / 1000000)⟩,
    ⟨pyRound (u / 1000000 * 1000), round3_mul_1000 (u / 1000000)⟩,
    round3_sub_abs (d / 1000000), round3_sub_abs (u / 1000000)⟩

end Pidata
